import Mathlib

/-!
Shallow embedding of `game_agent.py` (Isolation game-playing agent):
the evaluation function `custom_score`, the `CustomPlayer` configuration,
and the search methods `minimax`, `alphabeta` and `get_move`.

The Isolation `Board` is an external collaborator; the search consumes it
through a narrow interface (enumerate legal moves for a named player,
forecast a move, resolve the opponent, resolve a player's location, query
the active player).  We model that interface as a structure of functions
over an abstract state type `σ`, exactly the operations the agent calls.

Scores: the Python code uses floats, but every value actually produced by
`custom_score` (theta0 = 0.0, theta1 = 1.0, theta2 = -1.0 applied to move
counts) and by the `alphabeta` stub (0.0) is an exact integer, so scores
are embedded as `Int`.  The `alpha`/`beta` parameters default to the float
infinities and are never read; they are embedded as an extended-integer
type `XScore` with explicit infinities.

Time: `self.time_left` is a zero-argument callback sampled once at the top
of each search call.  We model it as a function `Nat → Int` from the index
of the sample (the "tick") to the reported milliseconds, and thread the
tick count through the recursion; exceptions (`Timeout`, `InvalidMethod`)
become the error side of `Except`.
-/

/-- A move is a (row, col) pair of ints; (-1, -1) is the no-move sentinel. -/
abbrev Move := Int × Int

/-- The two competitors recorded in a position (opaque player identities). -/
inductive Player where
  | p1 : Player
  | p2 : Player
deriving DecidableEq, Repr

/-- The exceptions raised by the agent: `Timeout` and `InvalidMethod`. -/
inductive Exn where
  | timeout : Exn
  | invalidMethod : Exn
deriving DecidableEq, Repr

deriving instance DecidableEq for Except

/-- The Board interface consumed by the search (`isolation.Board` is
external to this repository; these are exactly the operations the agent
calls on it).  `getLegalMoves g p` is `game.get_legal_moves(p)`; the
Python call `game.get_legal_moves()` defaults the argument to the active
player and is embedded as `api.getLegalMoves g (api.activePlayer g)`. -/
structure GameAPI (σ : Type) where
  getLegalMoves : σ → Player → List Move
  forecastMove : σ → Move → σ
  getOpponent : σ → Player → Player
  getPlayerLocation : σ → Player → Move
  activePlayer : σ → Player

/-- `custom_score(game, player)`: theta0 + theta1 * my_moves + theta2 *
opponent_moves with theta0 = 0.0, theta1 = 1.0, theta2 = -1.0. -/
def custom_score {σ : Type} (api : GameAPI σ) (game : σ) (player : Player) : Int :=
  let theta0 : Int := 0
  let theta1 : Int := 1
  let theta2 : Int := -1
  let my_moves : Int := (api.getLegalMoves game player).length
  let opponent_moves : Int := (api.getLegalMoves game (api.getOpponent game player)).length
  theta0 + (theta1 * my_moves) + (theta2 * opponent_moves)

/-- Python `<` on move tuples: lexicographic on (row, col). -/
def moveLt (a b : Move) : Bool :=
  a.1 < b.1 || (a.1 = b.1 && a.2 < b.2)

/-- Python `<` on (score, move) tuples: compare scores, tie-break on move. -/
def pairLt (a b : Int × Move) : Bool :=
  a.1 < b.1 || (a.1 = b.1 && moveLt a.2 b.2)

/-- Python `max` over a list of (score, move) tuples: the first maximal
element (a later element replaces the best only when strictly greater).
Python raises on an empty list; the code only applies `max` to the
non-empty `scores` list, so the `[]` case is unreachable. -/
def pymax : List (Int × Move) → Int × Move
  | [] => (0, (-1, -1))
  | x :: xs => xs.foldl (fun best a => if pairLt best a then a else best) x

/-- Python `min` over a list of (score, move) tuples: the first minimal
element. -/
def pymin : List (Int × Move) → Int × Move
  | [] => (0, (-1, -1))
  | x :: xs => xs.foldl (fun best a => if pairLt a best then a else best) x

/-- The `for move in legal_moves` loop body of `minimax`: forecast each
move and run the child search `f` on the resulting position, threading the
tick count and propagating any exception.  `f` is instantiated with the
recursive call exactly as the source writes it. -/
def childLoop {σ : Type} (f : σ → Nat → Except Exn (Nat × (Int × Move)))
    (fore : σ → Move → σ) (g : σ) :
    List Move → Nat → Except Exn (Nat × List (Int × Move))
  | [], tick => .ok (tick, [])
  | m :: rest, tick =>
    match f (fore g m) tick with
    | .error e => .error e
    | .ok (t1, sm) =>
      match childLoop f fore g rest t1 with
      | .error e => .error e
      | .ok (t2, sms) => .ok (t2, sm :: sms)

/-- `CustomPlayer.minimax(game, depth, maximizing_player)`.  Checks the
deadline first, then the no-legal-moves terminal, then the depth-0 leaf,
and otherwise recurses over the legal moves — with the literal argument
`False` for `maximizing_player`, as in the source
(`self.minimax(new_game, depth-1, False)`) — and combines the children's
(score, move) pairs with Python `max`/`min`. -/
def minimax {σ : Type} (api : GameAPI σ) (score : σ → Player → Int)
    (time_left : Nat → Int) (threshold : Int) :
    σ → Nat → Bool → Nat → Except Exn (Nat × (Int × Move))
  | g, depth, maximizing_player, tick =>
    if time_left tick < threshold then .error .timeout
    else
      let tick := tick + 1
      let legal_moves := api.getLegalMoves g (api.activePlayer g)
      if legal_moves.length ≤ 0 then
        .ok (tick, (score g (api.activePlayer g), (-1, -1)))
      else
        match depth with
        | 0 =>
          let score_player := if maximizing_player then Player.p2 else Player.p1
          .ok (tick, (score g score_player, api.getPlayerLocation g score_player))
        | d + 1 =>
          match childLoop (fun g2 t => minimax api score time_left threshold g2 d false t)
              api.forecastMove g legal_moves tick with
          | .error e => .error e
          | .ok (t2, scores) =>
            let best_value := if maximizing_player then pymax scores else pymin scores
            .ok (t2, best_value)

/-- Extended scores for the `alpha`/`beta` parameters, whose Python
defaults are `float("-inf")` and `float("inf")`; the body never reads
them. -/
inductive XScore where
  | ninf : XScore
  | fin : Int → XScore
  | pinf : XScore
deriving DecidableEq, Repr

/-- `CustomPlayer.alphabeta(game, depth, alpha, beta, maximizing_player)`:
after the deadline check the body is a stub that returns
`(0.0, (-1, -1))` unconditionally. -/
def alphabeta {σ : Type} (api : GameAPI σ) (score : σ → Player → Int)
    (time_left : Nat → Int) (threshold : Int)
    (g : σ) (depth : Nat) (alpha beta : XScore) (maximizing_player : Bool)
    (tick : Nat) : Except Exn (Nat × (Int × Move)) :=
  if time_left tick < threshold then .error .timeout
  else
    let tick := tick + 1
    let score0 : Int := 0
    let move : Move := (-1, -1)
    .ok (tick, (score0, move))

/-- The configuration fields of a `CustomPlayer` (search_depth, iterative,
score_fn, method, TIMER_THRESHOLD), as set in `__init__`.  The mutable
`time_left` slot is modelled as the callback argument of `get_move`; the
`current_depth` slot is written once (to 0) and never read. -/
structure CustomPlayer (σ : Type) where
  search_depth : Nat
  iterative : Bool
  score : σ → Player → Int
  method : String
  TIMER_THRESHOLD : Int

/-- The `try:` body of `get_move`: dispatch on `self.method`, calling
`self.minimax(game, self.search_depth, True)` or
`self.alphabeta(game, 3)` (whose remaining Python defaults are
alpha = -inf, beta = +inf, maximizing_player = True), keeping the move
component; an unrecognized method raises `InvalidMethod`. -/
def get_move_body {σ : Type} (api : GameAPI σ) (self : CustomPlayer σ)
    (game : σ) (time_left : Nat → Int) : Except Exn Move :=
  if self.method = "minimax" then
    match minimax api self.score time_left self.TIMER_THRESHOLD game self.search_depth true 0 with
    | .error e => .error e
    | .ok (_, (_, move)) => .ok move
  else if self.method = "alphabeta" then
    match alphabeta api self.score time_left self.TIMER_THRESHOLD game 3 .ninf .pinf true 0 with
    | .error e => .error e
    | .ok (_, (_, move)) => .ok move
  else
    .error .invalidMethod

/-- `CustomPlayer.get_move(game, legal_moves, time_left)`: initializes
`move = (-1, -1)`, runs the dispatch body in a `try` block whose
`except Timeout: pass` leaves `move` at its last assigned value (the
assignment from the search completes only when no exception is raised),
and returns `move`.  `InvalidMethod` is not caught.  The `legal_moves`
parameter is never read by the body. -/
def get_move {σ : Type} (api : GameAPI σ) (self : CustomPlayer σ)
    (game : σ) (legal_moves : List Move) (time_left : Nat → Int) :
    Except Exn Move :=
  let move : Move := (-1, -1)
  match get_move_body api self game time_left with
  | .ok m => .ok m
  | .error .timeout => .ok move
  | .error e => .error e

/-! ### A concrete Board instance for witnesses and counterexamples

A tiny table-driven position space (states are `Nat` labels) satisfying
the Board interface: state 0 has active player p1 with two legal moves
leading to states 1 and 2; states 1 and 2 have active player p2 with one
legal move each; state 9 is a dead position with no legal moves. -/

/-- Legal moves table of the concrete instance. -/
def gLegal : Nat → Player → List Move
  | 0, .p1 => [(0, 1), (1, 1)]
  | 0, .p2 => [(2, 1)]
  | 1, .p1 => [(1, 1)]
  | 1, .p2 => [(2, 1)]
  | 2, .p1 => [(0, 1), (2, 1)]
  | 2, .p2 => [(2, 1)]
  | _, _ => []

/-- Player locations table of the concrete instance. -/
def gLoc : Nat → Player → Move
  | 0, .p1 => (0, 0)
  | 0, .p2 => (2, 2)
  | 1, .p1 => (0, 1)
  | 1, .p2 => (2, 2)
  | 2, .p1 => (1, 1)
  | 2, .p2 => (2, 2)
  | _, _ => (-1, -1)

/-- Move forecasting of the concrete instance: from state 0, (0,1) leads
to state 1 and (1,1) to state 2; anything else reaches the dead state 9. -/
def gForecast (s : Nat) (m : Move) : Nat :=
  if s = 0 ∧ m = (0, 1) then 1
  else if s = 0 ∧ m = (1, 1) then 2
  else 9

/-- Active player of the concrete instance: p1 at the root, p2 after. -/
def gActive : Nat → Player
  | 0 => .p1
  | _ => .p2

/-- The concrete Board instance. -/
def GA : GameAPI Nat where
  getLegalMoves := gLegal
  forecastMove := gForecast
  getOpponent := fun _ p => match p with | .p1 => .p2 | .p2 => .p1
  getPlayerLocation := gLoc
  activePlayer := gActive

/-- The default score function of the concrete instance (`custom_score`,
the `score_fn` default of `CustomPlayer.__init__`). -/
def csG : Nat → Player → Int := custom_score GA

/-- A time-left callback that always reports ample time. -/
def tlBig : Nat → Int := fun _ => 1000

/-- A time-left callback that always reports no time. -/
def tlZero : Nat → Int := fun _ => 0

/-! ### Helper lemmas -/

/-- The child loop can only propagate errors produced by the child search:
if the child search only ever fails with `Timeout`, so does the loop. -/
theorem childLoop_error_timeout {σ : Type}
    (f : σ → Nat → Except Exn (Nat × (Int × Move))) (fore : σ → Move → σ)
    (hf : ∀ (g : σ) (t : Nat) (e : Exn), f g t = .error e → e = .timeout) :
    ∀ (g : σ) (moves : List Move) (tick : Nat) (e : Exn),
      childLoop f fore g moves tick = .error e → e = .timeout := by
  intro g moves
  induction moves with
  | nil =>
    intro tick e h
    simp [childLoop] at h
  | cons m rest ih =>
    intro tick e h
    rw [childLoop] at h
    cases h1 : f (fore g m) tick with
    | error e1 =>
      rw [h1] at h
      injection h with h2
      exact h2 ▸ hf _ _ _ h1
    | ok v =>
      rw [h1] at h
      obtain ⟨t1, sm⟩ := v
      dsimp only at h
      cases h2 : childLoop f fore g rest t1 with
      | error e2 =>
        rw [h2] at h
        injection h with h3
        exact h3 ▸ ih t1 e2 h2
      | ok v2 =>
        rw [h2] at h
        obtain ⟨t2, sms⟩ := v2
        simp at h

/-- `minimax` fails only with `Timeout`: every error it returns is the
deadline cancellation, never `InvalidMethod`. -/
theorem minimax_error_timeout {σ : Type} (api : GameAPI σ)
    (sc : σ → Player → Int) (tl : Nat → Int) (th : Int) :
    ∀ (depth : Nat) (g : σ) (maxi : Bool) (tick : Nat) (e : Exn),
      minimax api sc tl th g depth maxi tick = .error e → e = .timeout := by
  intro depth
  induction depth with
  | zero =>
    intro g maxi tick e h
    rw [minimax] at h
    by_cases ht : tl tick < th
    · rw [if_pos ht] at h
      injection h with h2
      exact h2.symm
    · rw [if_neg ht] at h
      dsimp only at h
      by_cases hl : (api.getLegalMoves g (api.activePlayer g)).length ≤ 0
      · rw [if_pos hl] at h
        simp at h
      · rw [if_neg hl] at h
        simp at h
  | succ d ih =>
    intro g maxi tick e h
    rw [minimax] at h
    by_cases ht : tl tick < th
    · rw [if_pos ht] at h
      injection h with h2
      exact h2.symm
    · rw [if_neg ht] at h
      dsimp only at h
      by_cases hl : (api.getLegalMoves g (api.activePlayer g)).length ≤ 0
      · rw [if_pos hl] at h
        simp at h
      · rw [if_neg hl] at h
        cases h1 : childLoop (fun g2 t => minimax api sc tl th g2 d false t)
            api.forecastMove g (api.getLegalMoves g (api.activePlayer g)) (tick + 1) with
        | error e1 =>
          rw [h1] at h
          injection h with h2
          exact h2 ▸ childLoop_error_timeout _ _ (fun g2 t e2 => ih g2 false t e2) _ _ _ _ h1
        | ok v =>
          rw [h1] at h
          obtain ⟨t2, scores⟩ := v
          simp at h

/-- `alphabeta` fails only with `Timeout`. -/
theorem alphabeta_error_timeout {σ : Type} (api : GameAPI σ)
    (sc : σ → Player → Int) (tl : Nat → Int) (th : Int)
    (g : σ) (depth : Nat) (a b : XScore) (maxi : Bool) (tick : Nat) (e : Exn) :
    alphabeta api sc tl th g depth a b maxi tick = .error e → e = .timeout := by
  intro h
  rw [alphabeta] at h
  split at h
  · injection h with h2; exact h2.symm
  · simp at h

/-! ### Claim theorems -/

/-- C5: for every position and every player, `custom_score` equals the
number of legal moves of the player minus the number of legal moves of the
player's opponent, each count obtained from the position's legal-move
enumeration (`get_legal_moves`) for that side. -/
theorem custom_score_mobility {σ : Type} (api : GameAPI σ) (g : σ) (p : Player) :
    custom_score api g p
      = ((api.getLegalMoves g p).length : Int)
        - ((api.getLegalMoves g (api.getOpponent g p)).length : Int) := by
  unfold custom_score
  ring

/-- C9: `minimax` and `alphabeta` raise the `Timeout` cancellation as
their very first action whenever the time-remaining callback reports a
value below the configured threshold — for every Board instance, score
function, position, depth, flag and alpha/beta window, so before any
legal-move enumeration, position expansion or evaluation can occur. -/
theorem deadline_check_first :
    (∀ (σ : Type) (api : GameAPI σ) (sc : σ → Player → Int) (tl : Nat → Int)
        (th : Int) (g : σ) (depth : Nat) (maxi : Bool) (tick : Nat),
        tl tick < th →
        minimax api sc tl th g depth maxi tick = .error .timeout)
  ∧ (∀ (σ : Type) (api : GameAPI σ) (sc : σ → Player → Int) (tl : Nat → Int)
        (th : Int) (g : σ) (depth : Nat) (a b : XScore) (maxi : Bool) (tick : Nat),
        tl tick < th →
        alphabeta api sc tl th g depth a b maxi tick = .error .timeout) := by
  constructor
  · intro σ api sc tl th g depth maxi tick h
    rw [minimax]
    exact if_pos h
  · intro σ api sc tl th g depth a b maxi tick h
    rw [alphabeta]
    exact if_pos h

/-- Witness for C9 at a concrete instance: with a callback reporting 0 ms
against threshold 10, both searches raise `Timeout` at once. -/
theorem deadline_check_first_witness :
    minimax GA csG tlZero 10 0 3 true 0 = .error .timeout
  ∧ alphabeta GA csG tlZero 10 0 3 .ninf .pinf true 0 = .error .timeout :=
  ⟨deadline_check_first.1 Nat GA csG tlZero 10 0 3 true 0 (by decide),
   deadline_check_first.2 Nat GA csG tlZero 10 0 3 .ninf .pinf true 0 (by decide)⟩

/-- C7: `get_move` never propagates the `Timeout` cancellation to its
caller, and whenever the dispatched search raises `Timeout`, `get_move`
returns the move most recently assigned before the cancellation — which,
since the single assignment to `move` completes only when the search
returns normally, is the initial sentinel (-1, -1). -/
theorem get_move_timeout_recovery :
    (∀ (σ : Type) (api : GameAPI σ) (self : CustomPlayer σ) (g : σ)
        (lm : List Move) (tl : Nat → Int),
        get_move api self g lm tl ≠ .error .timeout)
  ∧ (∀ (σ : Type) (api : GameAPI σ) (self : CustomPlayer σ) (g : σ)
        (lm : List Move) (tl : Nat → Int),
        get_move_body api self g tl = .error .timeout →
        get_move api self g lm tl = .ok (-1, -1)) := by
  constructor
  · intro σ api self g lm tl
    unfold get_move
    cases hb : get_move_body api self g tl with
    | ok m => simp
    | error e => cases e <;> simp
  · intro σ api self g lm tl h
    unfold get_move
    rw [h]

/-- Witness for C7 at a concrete instance: with no time remaining the
minimax search raises `Timeout` and `get_move` returns (-1, -1), not an
error. -/
theorem get_move_timeout_recovery_witness :
    get_move GA ⟨3, true, csG, "minimax", 10⟩ 0 [] tlZero = .ok (-1, -1)
  ∧ get_move GA ⟨3, true, csG, "minimax", 10⟩ 0 [] tlZero ≠ .error .timeout :=
  ⟨get_move_timeout_recovery.2 Nat GA ⟨3, true, csG, "minimax", 10⟩ 0 [] tlZero (by decide),
   get_move_timeout_recovery.1 Nat GA ⟨3, true, csG, "minimax", 10⟩ 0 [] tlZero⟩

/-- C8: when the configured method string is neither "minimax" nor
"alphabeta", `get_move` fails with `InvalidMethod` (the `except Timeout`
handler does not recover it, so it reaches the caller as an error, never a
returned move); for a recognized method string, `InvalidMethod` is never
raised — the searches can only fail with `Timeout`. -/
theorem get_move_invalid_method :
    (∀ (σ : Type) (api : GameAPI σ) (self : CustomPlayer σ) (g : σ)
        (lm : List Move) (tl : Nat → Int),
        self.method ≠ "minimax" → self.method ≠ "alphabeta" →
        get_move api self g lm tl = .error .invalidMethod)
  ∧ (∀ (σ : Type) (api : GameAPI σ) (self : CustomPlayer σ) (g : σ)
        (lm : List Move) (tl : Nat → Int),
        self.method = "minimax" ∨ self.method = "alphabeta" →
        get_move api self g lm tl ≠ .error .invalidMethod) := by
  constructor
  · intro σ api self g lm tl h1 h2
    unfold get_move get_move_body
    rw [if_neg h1, if_neg h2]
  · intro σ api self g lm tl hm
    unfold get_move get_move_body
    rcases hm with hm | hm
    · rw [if_pos hm]
      cases h1 : minimax api self.score tl self.TIMER_THRESHOLD g self.search_depth true 0 with
      | ok v =>
        obtain ⟨t, s, m⟩ := v
        simp
      | error e =>
        have := minimax_error_timeout api self.score tl self.TIMER_THRESHOLD
          self.search_depth g true 0 e h1
        subst this
        simp
    · by_cases h1 : self.method = "minimax"
      · rw [hm] at h1
        simp at h1
      · rw [if_neg h1, if_pos hm]
        cases h2 : alphabeta api self.score tl self.TIMER_THRESHOLD g 3 .ninf .pinf true 0 with
        | ok v =>
          obtain ⟨t, s, m⟩ := v
          simp
        | error e =>
          have := alphabeta_error_timeout api self.score tl self.TIMER_THRESHOLD
            g 3 .ninf .pinf true 0 e h2
          subst this
          simp

/-- Witness for C8 at concrete instances: an unrecognized method string
fails with `InvalidMethod`; the recognized string "minimax" never does. -/
theorem get_move_invalid_method_witness :
    get_move GA ⟨1, true, csG, "other", 10⟩ 0 [] tlBig = .error .invalidMethod
  ∧ get_move GA ⟨1, true, csG, "minimax", 10⟩ 0 [] tlBig ≠ .error .invalidMethod :=
  ⟨get_move_invalid_method.1 Nat GA ⟨1, true, csG, "other", 10⟩ 0 [] tlBig
      (by decide) (by decide),
   get_move_invalid_method.2 Nat GA ⟨1, true, csG, "minimax", 10⟩ 0 [] tlBig
      (Or.inl rfl)⟩

/-- C6 counterexample: at a depth-0 maximizing leaf of the concrete
instance whose active player is p2, the code evaluates board player 2 and
returns p2's location (2, 2) — not the player who has just moved into the
position (the opponent of the active player, p1, at location (0, 1)) as
the claim states. -/
theorem minimax_depth0_not_just_moved :
    minimax GA csG tlBig 10 1 0 true 0 = .ok (1, (0, (2, 2)))
  ∧ minimax GA csG tlBig 10 1 0 true 0 ≠
      .ok (1, (csG 1 (GA.getOpponent 1 (GA.activePlayer 1)),
        GA.getPlayerLocation 1 (GA.getOpponent 1 (GA.activePlayer 1)))) := by
  decide

/-- C6 (amended): when the position has no legal moves for the active
player, `minimax` returns the evaluation from the active player's
perspective paired with the sentinel (-1, -1), at every depth; otherwise,
at depth 0, it returns the evaluation from the perspective of board
player 2 when the current layer is maximizing and board player 1 when
minimizing, paired with that player's current location. -/
theorem minimax_terminal_and_leaf {σ : Type} (api : GameAPI σ)
    (sc : σ → Player → Int) (tl : Nat → Int) (th : Int) (g : σ)
    (maxi : Bool) (tick : Nat) (htime : ¬ tl tick < th) :
    (∀ depth : Nat, api.getLegalMoves g (api.activePlayer g) = [] →
        minimax api sc tl th g depth maxi tick
          = .ok (tick + 1, (sc g (api.activePlayer g), (-1, -1))))
  ∧ (api.getLegalMoves g (api.activePlayer g) ≠ [] →
        minimax api sc tl th g 0 maxi tick
          = .ok (tick + 1, (sc g (if maxi then Player.p2 else Player.p1),
              api.getPlayerLocation g (if maxi then Player.p2 else Player.p1)))) := by
  constructor
  · intro depth hl
    rw [minimax, if_neg htime]
    dsimp only
    rw [hl]
    simp
  · intro hl
    rw [minimax, if_neg htime]
    dsimp only
    rw [if_neg (by simpa [Nat.le_zero, List.length_eq_zero] using hl)]

/-- Witness for C6 (amended) at concrete instances: the dead state 9 gives
the terminal branch at depth 3; state 1 at depth 0 on a minimizing layer
gives the player-1 leaf. -/
theorem minimax_terminal_and_leaf_witness :
    minimax GA csG tlBig 10 9 3 true 0 = .ok (1, (0, (-1, -1)))
  ∧ minimax GA csG tlBig 10 1 0 false 0 = .ok (1, (0, (0, 1))) := by
  constructor
  · have h := (minimax_terminal_and_leaf GA csG tlBig 10 9 true 0 (by decide)).1 3 (by decide)
    exact h.trans (by decide)
  · have h := (minimax_terminal_and_leaf GA csG tlBig 10 1 false 0 (by decide)).2 (by decide)
    exact h.trans (by decide)

/-- C1: the recursive layer of `minimax` does forecast every legal move
and combine the children's (score, move) pairs with Python max/min, but it
recurses with the literal flag `False` rather than flipping the current
flag.  At a minimizing layer of the concrete instance the result therefore
differs from the claim's prescription (children searched with the flag
flipped to maximizing, combined with the minimum pair): the code returns
(0, (0, 1)) while the flipped-flag recursion prescribes (-1, (2, 2)). -/
theorem minimax_flag_not_flipped :
    minimax GA csG tlBig 10 0 1 false 0 = .ok (3, (0, (0, 1)))
  ∧ minimax GA csG tlBig 10 0 1 false 0 ≠
      (match childLoop (fun g2 t => minimax GA csG tlBig 10 g2 0 true t)
          GA.forecastMove 0 (GA.getLegalMoves 0 (GA.activePlayer 0)) 1 with
       | .error e => .error e
       | .ok (t2, scores) => .ok (t2, pymin scores)) := by
  decide

/-- C2: at the concrete instance, at the same depth 1 and with alpha and
beta initialized to the infinities, `alphabeta` does not select the move
`minimax` selects: minimax selects (1, 1) while the `alphabeta` stub
yields the sentinel (-1, -1). -/
theorem alphabeta_differs_from_minimax :
    (minimax GA csG tlBig 10 0 1 true 0).map (fun r => r.2.2) = .ok ((1 : Int), (1 : Int))
  ∧ (alphabeta GA csG tlBig 10 0 1 .ninf .pinf true 0).map (fun r => r.2.2)
      = .ok ((-1 : Int), (-1 : Int))
  ∧ (((1 : Int), (1 : Int)) : Move) ≠ ((-1 : Int), (-1 : Int)) := by
  decide

/-- C3: `get_move` called with an empty `legal_moves` list does not return
the sentinel immediately: it never reads `legal_moves`, invokes the
configured search on the game position, and here returns the searched
move (1, 1), not (-1, -1). -/
theorem get_move_empty_legal_moves_still_searches :
    get_move GA ⟨1, true, csG, "minimax", 10⟩ 0 [] tlBig = .ok ((1 : Int), (1 : Int))
  ∧ get_move GA ⟨1, true, csG, "minimax", 10⟩ 0 [] tlBig ≠ .ok ((-1 : Int), (-1 : Int)) := by
  decide

/-- C4: `get_move` performs a single fixed-depth search and no iterative
deepening — its result is identical whether the `iterative` flag is true
or false, for every method, depth, position and clock; and with the
"alphabeta" method the configured `search_depth` is ignored entirely (the
call is hard-coded at depth 3). -/
theorem get_move_no_iterative_deepening :
    (∀ (σ : Type) (api : GameAPI σ) (sd : Nat) (sc : σ → Player → Int)
        (m : String) (th : Int) (g : σ) (lm : List Move) (tl : Nat → Int),
        get_move api ⟨sd, true, sc, m, th⟩ g lm tl
          = get_move api ⟨sd, false, sc, m, th⟩ g lm tl)
  ∧ (∀ (σ : Type) (api : GameAPI σ) (sd1 sd2 : Nat) (it1 it2 : Bool)
        (sc : σ → Player → Int) (th : Int) (g : σ) (lm : List Move) (tl : Nat → Int),
        get_move api ⟨sd1, it1, sc, "alphabeta", th⟩ g lm tl
          = get_move api ⟨sd2, it2, sc, "alphabeta", th⟩ g lm tl) := by
  constructor
  · intro σ api sd sc m th g lm tl
    rfl
  · intro σ api sd1 sd2 it1 it2 sc th g lm tl
    rfl

/-- C10: the result of `get_move` does not depend on its `legal_moves`
argument — the parameter is never read, so any two argument lists
(including an empty versus a non-empty one) give the same result. -/
theorem get_move_ignores_legal_moves {σ : Type} (api : GameAPI σ)
    (self : CustomPlayer σ) (g : σ) (lm1 lm2 : List Move) (tl : Nat → Int) :
    get_move api self g lm1 tl = get_move api self g lm2 tl := rfl
